import Mathlib

/-!
Verification of the signal-dispatch helpers (`scrapy/utils/signal.py`) and the
engine-status snapshot (`scrapy/utils/engine.py`).

The embedding is shallow.  A receiver is identified by a numeric id together
with the behaviour its invocation exhibits for the firing under study:
returning a plain value, raising an exception synchronously, or returning a
Twisted `Deferred`.  A `Deferred` is modelled by the logical time `t` at which
it fires together with the result it fires with; `t = 0` means the deferred is
already fired when the dispatch loop handles it (in particular
`maybeDeferred` / `maybeDeferred_coro` on a plain return or a synchronous
raise yields an already-fired deferred), while `t ≥ 1` means it fires only
after the dispatch loop has finished.  The single-threaded reactor never runs
callbacks of a pending deferred while the dispatch loop is still executing.

The receiver registry and `robustApply` live in the external `pydispatch`
package; the spec treats them as consumed collaborators and states their
contract (spec section 4.1), so they are modelled from that contract here.
Logging is modelled as the list of records emitted during one dispatch; the
records appear in receiver resolution order (in the implementation a record
for a pending invocation is emitted when that invocation completes, so the
real emission order interleaves by completion time; the claims below concern
only which records are emitted, never their order).
-/

namespace Scrapy

/-- Exception kinds.  `stopDownload` is `scrapy.exceptions.StopDownload`, the
designated stop-processing control error; every other exception class is
represented by its name. -/
inductive ExcKind
  | stopDownload
  | other (name : String)
deriving DecidableEq, Repr

/-- A Twisted `Failure`: either a plain captured exception, or a
`twisted.internet.defer.FirstError` produced by a `DeferredList` with
`fireOnOneErrback=True`, wrapping the sub-failure and the index of the
deferred that failed. -/
inductive Failure
  | exc (e : ExcKind)
  | firstError (sub : Failure) (index : Nat)
deriving DecidableEq, Repr

/-- The result a deferred eventually fires with. -/
inductive DRes
  | ok (v : Nat)
  | err (e : ExcKind)
deriving DecidableEq, Repr

/-- What `robustApply(receiver, ...)` does for this firing: return a plain
value, raise an exception synchronously, or return a `Deferred` that fires at
time `t` with result `res` (`t = 0`: already fired during the loop). -/
inductive Behavior
  | ret (v : Nat)
  | raise (e : ExcKind)
  | defer (t : Nat) (res : DRes)
deriving DecidableEq, Repr

/-- A receiver: an identity plus its invocation behaviour for this firing. -/
structure Receiver where
  id : Nat
  behavior : Behavior
deriving DecidableEq, Repr

/-- Which of the two `logger.error` call sites in `send_catch_log` /
`send_catch_log_deferred` produced a record. -/
inductive LogKind
  | handlerError
  | deferredFromHandler
deriving DecidableEq, Repr

/-- A structured error record: the receiver named in the message, the call
site, and the `spider` keyword argument passed in `extra`. -/
structure LogRecord where
  receiver : Nat
  kind : LogKind
  spider : Option Nat
deriving DecidableEq, Repr

/-- One receiver's Outcome in an Aggregate Result: a returned value, a
captured `Failure`, or — in synchronous dispatch only — the un-awaited
`Deferred` object the receiver returned. -/
inductive Outcome
  | value (v : Nat)
  | failure (f : Failure)
  | pendingDeferred (t : Nat) (res : DRes)
deriving DecidableEq, Repr

/-! ### Receiver registry (external collaborator, spec section 4.1) -/

/-- A signal identity; `Sig.any` is the `pydispatch.dispatcher.Any` wildcard. -/
inductive Sig
  | any
  | sig (n : Nat)
deriving DecidableEq, Repr

/-- A sender identity; `Snd.any` is the `Any` wildcard and `Snd.anonymous`
the `Anonymous` default sender. -/
inductive Snd
  | any
  | anonymous
  | snd (n : Nat)
deriving DecidableEq, Repr

/-- One registration: (signal, sender, receiver). -/
abbrev Registration := Sig × Snd × Receiver

/-- Modelled from the spec (section 4.1, registry contract consumed from
`pydispatch`): a registration matches a query `(S, X)` when its signal is the
exact signal or the wildcard, and its sender is the exact sender or the
wildcard. -/
def regMatches (S : Sig) (X : Snd) (reg : Registration) : Bool :=
  (decide (reg.1 = S) || decide (reg.1 = Sig.any))
    && (decide (reg.2.1 = X) || decide (reg.2.1 = Snd.any))

/-- Modelled from the spec (section 4.1):
`liveReceivers(getAllReceivers(sender, signal))` — all currently-live
receivers registered for the exact `(signal, sender)` pair and for wildcard
combinations, in registration order.  Liveness of a receiver (weak-reference
reachability) is an oracle `live` on receiver ids. -/
def liveReceivers (live : Nat → Bool) (regs : List Registration)
    (S : Sig) (X : Snd) : List Receiver :=
  (regs.filter (fun reg => regMatches S X reg && live reg.2.2.id)).map
    (fun reg => reg.2.2)

/-- Modelled from the spec (section 4.1): `disconnect(receiver, signal,
sender)` removes the registration under the exact key `(signal, sender)` if
present; no error if absent.  (Registrations are unique per the spec's
at-most-once invariant, so removing every structural copy is the same as
removing one.) -/
def disconnect (r : Receiver) (S : Sig) (X : Snd)
    (regs : List Registration) : List Registration :=
  regs.filter (fun reg => !decide (reg.1 = S ∧ reg.2.1 = X ∧ reg.2.2 = r))

/-- `disconnect_all(signal, sender)`: resolve the live receiver list once,
then disconnect each receiver under the query key `(signal, sender)`. -/
def disconnect_all (S : Sig) (X : Snd) (live : Nat → Bool)
    (regs : List Registration) : List Registration :=
  (liveReceivers live regs S X).foldl (fun acc r => disconnect r S X acc) regs

/-! ### Synchronous fan-out: `send_catch_log` -/

/-- The `dont_log` classes of `send_catch_log` after normalisation:
`dont_log = tuple(dont_log) ...; dont_log += (StopDownload,)` — the caller's
classes plus, always, `StopDownload`. -/
def suppressedSync (dont_log : List ExcKind) (e : ExcKind) : Bool :=
  dont_log.contains e || decide (e = ExcKind.stopDownload)

/-- The Outcome `send_catch_log` records for one receiver: the returned value,
a `Failure()` capturing a raised exception (whether or not it is in
`dont_log`), or the returned `Deferred` itself, un-awaited. -/
def syncOutcome (r : Receiver) : Outcome :=
  match r.behavior with
  | .ret v => .value v
  | .raise e => .failure (.exc e)
  | .defer t res => .pendingDeferred t res

/-- The log record `send_catch_log` emits for one receiver, if any: the
"Cannot return deferreds from signal handler" error for a returned
`Deferred`; the "Error caught on signal handler" error for a raised exception
not in the suppressed set; nothing otherwise. -/
def syncLog (dont_log : List ExcKind) (spider : Option Nat)
    (r : Receiver) : Option LogRecord :=
  match r.behavior with
  | .ret _ => none
  | .defer _ _ => some ⟨r.id, .deferredFromHandler, spider⟩
  | .raise e =>
    if suppressedSync dont_log e then none
    else some ⟨r.id, .handlerError, spider⟩

/-- `send_catch_log`: iterate over the live receivers in order, recording one
`(receiver, outcome)` pair each and emitting at most one log record each.
The loop body handles each receiver independently, so the loop is a map for
the pairs and a filterMap for the log records. -/
def send_catch_log (dont_log : List ExcKind) (spider : Option Nat)
    (receivers : List Receiver) :
    List (Nat × Outcome) × List LogRecord :=
  (receivers.map (fun r => (r.id, syncOutcome r)),
   receivers.filterMap (syncLog dont_log spider))

/-! ### Asynchronous fan-out -/

/-- `maybeDeferred_coro(robustApply, receiver, ...)` (and likewise
`maybeDeferred`): a plain return or a synchronous raise becomes an
already-fired deferred (time 0); a returned deferred is used as is. -/
def invocationOf : Behavior → Nat × DRes
  | .ret v => (0, .ok v)
  | .raise e => (0, .err e)
  | .defer t res => (t, res)

/-- The value the `addBoth` pairing callback of `send_catch_log_deferred`
sees: the success value, or the `Failure` the `logerror` errback passed
through. -/
def deferredOutcome : DRes → Outcome
  | .ok v => .value v
  | .err e => .failure (.exc e)

/-- The guard of `logerror` in `send_catch_log_deferred`:
`if dont_log is None or not isinstance(failure.value, dont_log)` — the record
is emitted when no `dont_log` was supplied, or when the exception is not an
instance of the supplied classes.  `StopDownload` is not added here. -/
def logerrorEmits (dont_log : Option (List ExcKind)) (e : ExcKind) : Bool :=
  dont_log.isNone || !((dont_log.getD []).contains e)

/-- The log record the `logerror` errback of `send_catch_log_deferred` emits
for one receiver, if any. -/
def asyncLog (dont_log : Option (List ExcKind)) (spider : Option Nat)
    (r : Receiver) : Option LogRecord :=
  match (invocationOf r.behavior).2 with
  | .ok _ => none
  | .err e =>
    if logerrorEmits dont_log e then some ⟨r.id, .handlerError, spider⟩
    else none

/-- A deferred that has run to completion: the logical time it fires at and
the result it fires with. -/
structure FiredDeferred (α : Type) where
  time : Nat
  result : Except Failure α

/-- The `(receiver, result)` pair produced for one receiver by
`d.addBoth(lambda result: (receiver, result))`.  The lambda closes over the
loop variable `receiver` (the `cell-var-from-loop` case the source marks with
a TODO): when the invocation is already complete during the loop (time 0) the
callback runs immediately and sees the current receiver, otherwise it runs
after the loop has finished, when `receiver` holds the last resolved
receiver. -/
def pairFor (lastId : Nat) (r : Receiver) : Nat × Outcome :=
  (if (invocationOf r.behavior).1 = 0 then r.id else lastId,
   deferredOutcome (invocationOf r.behavior).2)

/-- `send_catch_log_deferred`: one deferred per live receiver, a `logerror`
errback and a pairing `addBoth` on each, then `DeferredList(dfds)` followed by
`[x[1] for x in out]`.  Every per-receiver failure was converted into a
success pair by `addBoth`, so the aggregate deferred always fires with the
pair list, at the time the slowest invocation completes. -/
def send_catch_log_deferred (dont_log : Option (List ExcKind))
    (spider : Option Nat) (receivers : List Receiver) :
    FiredDeferred (List (Nat × Outcome)) × List LogRecord :=
  let lastId := ((receivers.getLast?).map Receiver.id).getD 0
  (⟨(receivers.map (fun r => (invocationOf r.behavior).1)).foldl max 0,
    .ok (receivers.map (pairFor lastId))⟩,
   receivers.filterMap (asyncLog dont_log spider))

/-- The errback of `send_deferred`: `err.trap(FirstError)` then
`err.value.subFailure` — a `FirstError` is unwrapped to its sub-failure, any
other failure is re-raised unchanged by `trap`. -/
def unwrap_firsterror : Failure → Failure
  | .firstError sub _ => sub
  | f => f

/-- The failing invocations of a firing, as `(time, index, exception)`
triples in resolution order. -/
def failures (receivers : List Receiver) : List (Nat × Nat × ExcKind) :=
  receivers.enum.filterMap (fun p =>
    match (invocationOf p.2.behavior).2 with
    | .err e => some ((invocationOf p.2.behavior).1, p.1, e)
    | .ok _ => none)

/-- Completion order of two failures: earlier time first; among invocations
completing at the same time, the one the dispatch loop (and the
`DeferredList` constructor) reaches first, i.e. the lower index. -/
def keyLE (a b : Nat × Nat × ExcKind) : Bool :=
  decide (a.1 < b.1) || (decide (a.1 = b.1) && decide (a.2.1 ≤ b.2.1))

/-- The first failure to occur, in completion order. -/
def minFailure : List (Nat × Nat × ExcKind) → Option (Nat × Nat × ExcKind)
  | [] => none
  | c :: rest =>
    match minFailure rest with
    | none => some c
    | some b => if keyLE c b then some c else some b

/-- The first receiver invocation of the firing to fail, if any: this is the
failure a `DeferredList(..., fireOnOneErrback=True)` wraps in `FirstError`. -/
def firstFailure (receivers : List Receiver) : Option (Nat × Nat × ExcKind) :=
  minFailure (failures receivers)

/-- `send_deferred`: one deferred per live receiver, a correctly-bound pairing
callback on each (`create_callback`), then `DeferredList(dfds,
consumeErrors=True, fireOnOneErrback=True)`, the `unwrap_firsterror` errback,
and the `[x[1] for x in out]` callback.  If any invocation fails, the
aggregate fails at the first failure with `FirstError(subFailure, index)`,
which the errback unwraps; the extraction callback is skipped on that path.
Otherwise the aggregate fires with all pairs once every invocation has
completed. -/
def send_deferred (receivers : List Receiver) :
    FiredDeferred (List (Nat × Outcome)) :=
  match firstFailure receivers with
  | some (t, i, e) => ⟨t, .error (unwrap_firsterror (.firstError (.exc e) i))⟩
  | none =>
    ⟨(receivers.map (fun r => (invocationOf r.behavior).1)).foldl max 0,
     .ok (receivers.map
        (fun r => (r.id, deferredOutcome (invocationOf r.behavior).2)))⟩

/-! ### Engine status snapshot (`scrapy/utils/engine.py`) -/

/-- The fixed expression list of `get_engine_status`. -/
def engineStatusTests : List String :=
  ["time()-engine.start_time",
   "len(engine.downloader.active)",
   "engine.scraper.is_idle()",
   "engine.spider.name",
   "engine.spider_is_idle()",
   "engine.slot.closing",
   "len(engine.slot.inprogress)",
   "len(engine.slot.scheduler.dqs or [])",
   "len(engine.slot.scheduler.mqs)",
   "len(engine.scraper.slot.queue)",
   "len(engine.scraper.slot.active)",
   "engine.scraper.slot.active_size",
   "engine.scraper.slot.itemproc_size",
   "engine.scraper.slot.needs_backout()"]

/-- `get_engine_status(engine)`: evaluate each expression against the engine
object graph; a raised exception contributes
`f"\x7btype(e).__name__\x7d (exception)"` instead of a value.  The engine
itself is external (`scrapy.core.engine`), so it is modelled as an evaluation
oracle from an expression to its value or to the name of the raised
exception's type. -/
def get_engine_status (engine : String → Except String String) :
    List (String × String) :=
  engineStatusTests.map (fun test =>
    match engine test with
    | .ok v => (test, v)
    | .error en => (test, en ++ " (exception)"))

/-! ### Helper lemmas -/

theorem foldl_max_le_init : ∀ (l : List Nat) (a : Nat), a ≤ l.foldl max a
  | [], _ => le_refl _
  | x :: xs, a => le_trans (le_max_left a x) (foldl_max_le_init xs (max a x))

theorem le_foldl_max_of_mem :
    ∀ (l : List Nat) (a x : Nat), x ∈ l → x ≤ l.foldl max a
  | [], _, _, h => absurd h (List.not_mem_nil _)
  | y :: ys, a, x, h => by
    rcases List.mem_cons.mp h with rfl | h
    · exact le_trans (le_max_right a x) (foldl_max_le_init ys (max a x))
    · exact le_foldl_max_of_mem ys (max a y) x h

theorem keyLE_refl (a : Nat × Nat × ExcKind) : keyLE a a = true := by
  simp [keyLE]

theorem keyLE_trans {a b c : Nat × Nat × ExcKind}
    (h1 : keyLE a b = true) (h2 : keyLE b c = true) : keyLE a c = true := by
  simp only [keyLE, Bool.or_eq_true, Bool.and_eq_true, decide_eq_true_eq] at *
  omega

theorem keyLE_total (a b : Nat × Nat × ExcKind) :
    keyLE a b = true ∨ keyLE b a = true := by
  simp only [keyLE, Bool.or_eq_true, Bool.and_eq_true, decide_eq_true_eq]
  omega

theorem minFailure_eq_none :
    ∀ {l : List (Nat × Nat × ExcKind)}, minFailure l = none → l = []
  | [], _ => rfl
  | c :: rest, h => by
    unfold minFailure at h
    cases hm : minFailure rest with
    | none => rw [hm] at h; simp at h
    | some b =>
      rw [hm] at h
      by_cases hk : keyLE c b = true <;> simp [hk] at h

theorem minFailure_mem :
    ∀ {l : List (Nat × Nat × ExcKind)} {b}, minFailure l = some b → b ∈ l
  | [], _, h => by simp [minFailure] at h
  | c :: rest, b, h => by
    unfold minFailure at h
    cases hm : minFailure rest with
    | none =>
      rw [hm] at h
      simp at h
      subst h
      exact List.mem_cons_self c rest
    | some b' =>
      rw [hm] at h
      by_cases hk : keyLE c b' = true
      · simp [hk] at h
        subst h
        exact List.mem_cons_self c rest
      · simp [hk] at h
        subst h
        exact List.mem_cons_of_mem c (minFailure_mem hm)

theorem minFailure_le :
    ∀ {l : List (Nat × Nat × ExcKind)} {b}, minFailure l = some b →
      ∀ c ∈ l, keyLE b c = true
  | [], _, h => by simp [minFailure] at h
  | c :: rest, b, h => by
    unfold minFailure at h
    cases hm : minFailure rest with
    | none =>
      rw [hm] at h
      simp at h
      subst h
      intro x hx
      rcases List.mem_cons.mp hx with rfl | hx
      · exact keyLE_refl _
      · rw [minFailure_eq_none hm] at hx
        exact absurd hx (List.not_mem_nil x)
    | some b' =>
      rw [hm] at h
      by_cases hk : keyLE c b' = true
      · simp [hk] at h
        subst h
        intro x hx
        rcases List.mem_cons.mp hx with rfl | hx
        · exact keyLE_refl _
        · exact keyLE_trans hk (minFailure_le hm x hx)
      · simp [hk] at h
        subst h
        intro x hx
        rcases List.mem_cons.mp hx with rfl | hx
        · exact (keyLE_total _ b').resolve_left (by simpa using hk)
        · exact minFailure_le hm x hx

theorem failures_spec {rs : List Receiver} {t i : Nat} {e : ExcKind}
    (h : (t, i, e) ∈ failures rs) :
    ∃ r, rs[i]? = some r ∧ (invocationOf r.behavior).1 = t ∧
      (invocationOf r.behavior).2 = .err e := by
  unfold failures at h
  rcases List.mem_filterMap.mp h with ⟨⟨j, r⟩, hmem, heq⟩
  rcases hres : (invocationOf r.behavior).2 with v | e'
  · rw [hres] at heq
    simp at heq
  · rw [hres] at heq
    simp at heq
    obtain ⟨ht, hj, he⟩ := heq
    subst hj
    exact ⟨r, List.mk_mem_enum_iff_getElem?.mp hmem, ht, he ▸ hres⟩

theorem mem_foldl_disconnect (S : Sig) (X : Snd) :
    ∀ (rcvs : List Receiver) (regs : List Registration) (reg : Registration),
    (reg ∈ rcvs.foldl (fun acc r => disconnect r S X acc) regs ↔
      (reg ∈ regs ∧ ∀ r ∈ rcvs, ¬(reg.1 = S ∧ reg.2.1 = X ∧ reg.2.2 = r)))
  | [], regs, reg => by simp
  | r :: rest, regs, reg => by
    rw [List.foldl_cons, mem_foldl_disconnect S X rest]
    unfold disconnect
    rw [List.mem_filter]
    simp only [Bool.not_eq_true', decide_eq_false_iff_not, List.mem_cons]
    constructor
    · rintro ⟨⟨hmem, hr⟩, hrest⟩
      refine ⟨hmem, ?_⟩
      rintro x (rfl | hx)
      · exact hr
      · exact hrest x hx
    · rintro ⟨hmem, hall⟩
      exact ⟨⟨hmem, hall r (Or.inl rfl)⟩, fun x hx => hall x (Or.inr hx)⟩

/-! ### Claims -/

/-- Claim C3: for all registered live receivers for `(S, X)`, synchronous
dispatch `send_catch_log` returns a list of exactly one `(receiver, outcome)`
pair per live receiver, whose receiver components are the live receivers in
registration order, regardless of how many receivers succeed or fail. -/
theorem sync_dispatch_one_pair_per_receiver (dont_log : List ExcKind)
    (spider : Option Nat) (live : Nat → Bool) (regs : List Registration)
    (S : Sig) (X : Snd) :
    (send_catch_log dont_log spider (liveReceivers live regs S X)).1.length
        = (liveReceivers live regs S X).length
    ∧ (send_catch_log dont_log spider (liveReceivers live regs S X)).1.map
          Prod.fst
        = (liveReceivers live regs S X).map Receiver.id := by
  constructor
  · simp [send_catch_log]
  · simp [send_catch_log, List.map_map]

/-- Claim C9: in `send_catch_log`, a receiver whose invocation returns a
`Deferred` contributes exactly one error log record identifying it, and the
pending value itself, un-awaited, as its Outcome, while the surrounding
receivers are dispatched exactly as they would be without it. -/
theorem sync_deferred_return_logged (dont_log : List ExcKind)
    (spider : Option Nat) (pre post : List Receiver) (rid t : Nat)
    (res : DRes) :
    ((send_catch_log dont_log spider
          (pre ++ [⟨rid, .defer t res⟩] ++ post)).1
        = (send_catch_log dont_log spider pre).1
          ++ [(rid, .pendingDeferred t res)]
          ++ (send_catch_log dont_log spider post).1)
    ∧ ((send_catch_log dont_log spider
          (pre ++ [⟨rid, .defer t res⟩] ++ post)).2
        = (send_catch_log dont_log spider pre).2
          ++ [⟨rid, .deferredFromHandler, spider⟩]
          ++ (send_catch_log dont_log spider post).2) := by
  constructor
  · simp [send_catch_log, syncOutcome]
  · simp [send_catch_log, List.filterMap_append, syncLog]

/-- Claim C4: receiver failures never escape: the deferred returned by
collect-all dispatch always fires with a value (never with a failure), and a
receiver of synchronous dispatch that raises contributes a captured failure
Outcome at its own position instead of propagating. -/
theorem dispatch_captures_failures (dont_log : List ExcKind)
    (dl : Option (List ExcKind)) (spider : Option Nat) (rs : List Receiver) :
    (∃ pairs, (send_catch_log_deferred dl spider rs).1.result = .ok pairs)
    ∧ (∀ (i : Nat) (r : Receiver) (e : ExcKind), rs[i]? = some r →
        r.behavior = .raise e →
        (send_catch_log dont_log spider rs).1[i]?
          = some (r.id, .failure (.exc e))) := by
  constructor
  · exact ⟨_, rfl⟩
  · intro i r e hget hbeh
    simp [send_catch_log, List.getElem?_map, hget, hbeh, syncOutcome]

/-- Claim C5: collect-all dispatch completes only after every per-receiver
invocation has completed (its firing time dominates every invocation's
completion time), and its Aggregate Result contains one outcome per live
receiver, the i-th being the outcome of the i-th receiver's invocation — a
single failure never short-circuits the rest. -/
theorem collect_all_waits_for_all (dl : Option (List ExcKind))
    (spider : Option Nat) (rs : List Receiver) :
    (∀ r ∈ rs, (invocationOf r.behavior).1
        ≤ (send_catch_log_deferred dl spider rs).1.time)
    ∧ (∃ pairs, (send_catch_log_deferred dl spider rs).1.result = .ok pairs
        ∧ pairs.length = rs.length
        ∧ pairs.map Prod.snd
            = rs.map (fun r => deferredOutcome (invocationOf r.behavior).2)) := by
  constructor
  · intro r hr
    exact le_foldl_max_of_mem _ 0 _
      (List.mem_map.mpr ⟨r, hr, rfl⟩)
  · refine ⟨_, rfl, by simp [send_catch_log_deferred], ?_⟩
    simp [send_catch_log_deferred, List.map_map, pairFor]

/-- Claim C10: `get_engine_status` produces one entry per status expression in
the fixed list order; an expression whose evaluation raises contributes the
string `"<ErrorKindName> (exception)"` and every other expression is still
evaluated (each entry depends only on its own expression). -/
theorem engine_status_isolates_failures
    (engine : String → Except String String) :
    (get_engine_status engine).length = engineStatusTests.length
    ∧ (∀ (i : Nat) (test : String) (en : String),
        engineStatusTests[i]? = some test → engine test = .error en →
        (get_engine_status engine)[i]? = some (test, en ++ " (exception)"))
    ∧ (∀ (i : Nat) (test : String) (v : String),
        engineStatusTests[i]? = some test → engine test = .ok v →
        (get_engine_status engine)[i]? = some (test, v)) := by
  refine ⟨by simp [get_engine_status], ?_, ?_⟩
  · intro i test en hi he
    simp [get_engine_status, List.getElem?_map, hi, he]
  · intro i test v hi he
    simp [get_engine_status, List.getElem?_map, hi, he]

/-- Witness for the engine-status claim at a concrete failing engine. -/
theorem engine_status_isolates_failures_witness :
    (get_engine_status (fun _ => .error "AttributeError"))[3]?
      = some ("engine.spider.name", "AttributeError" ++ " (exception)") :=
  (engine_status_isolates_failures (fun _ => .error "AttributeError")).2.1
    3 "engine.spider.name" "AttributeError" rfl rfl

/-- Witness for the failure-capturing claim at a concrete raising receiver. -/
theorem dispatch_captures_failures_witness :
    (send_catch_log [] none [⟨3, .raise (.other "x")⟩]).1[0]?
      = some (3, .failure (.exc (.other "x"))) :=
  (dispatch_captures_failures [] none none [⟨3, .raise (.other "x")⟩]).2
    0 ⟨3, .raise (.other "x")⟩ (.other "x") rfl rfl

/-- Witness for the collect-all completion claim at a concrete pending
receiver. -/
theorem collect_all_waits_for_all_witness :
    (invocationOf (Behavior.defer 4 (.ok 2))).1
      ≤ (send_catch_log_deferred none none [⟨1, .defer 4 (.ok 2)⟩]).1.time :=
  (collect_all_waits_for_all none none [⟨1, .defer 4 (.ok 2)⟩]).1
    ⟨1, .defer 4 (.ok 2)⟩ (List.mem_singleton.mpr rfl)

/-- Claim C6: when at least one receiver invocation fails, fail-fast dispatch
fails with the unwrapped original failure of the first invocation to fail
(earliest completion time, earliest position among simultaneous completions)
and never with the `FirstError` aggregate wrapper of the underlying
`DeferredList`. -/
theorem fail_fast_unwraps_first_error (rs : List Receiver) (t i : Nat)
    (e : ExcKind) (hf : firstFailure rs = some (t, i, e)) :
    (send_deferred rs).result = .error (.exc e)
    ∧ (∀ (g : Failure) (k : Nat),
        (send_deferred rs).result ≠ .error (.firstError g k))
    ∧ (∃ r, rs[i]? = some r ∧ (invocationOf r.behavior).1 = t ∧
        (invocationOf r.behavior).2 = .err e)
    ∧ (∀ (t' i' : Nat) (e' : ExcKind), (t', i', e') ∈ failures rs →
        t < t' ∨ (t = t' ∧ i ≤ i')) := by
  have hf' : minFailure (failures rs) = some (t, i, e) := hf
  refine ⟨?_, ?_, ?_, ?_⟩
  · simp [send_deferred, hf, unwrap_firsterror]
  · intro g k
    simp [send_deferred, hf, unwrap_firsterror]
  · exact failures_spec (minFailure_mem hf')
  · intro t' i' e' hmem
    have hkey := minFailure_le hf' _ hmem
    simp only [keyLE, Bool.or_eq_true, Bool.and_eq_true,
      decide_eq_true_eq] at hkey
    omega

/-- Witness for the fail-fast unwrapping claim at a concrete firing. -/
theorem fail_fast_unwraps_first_error_witness :
    (send_deferred [⟨0, .ret 1⟩, ⟨1, .raise (.other "boom")⟩]).result
      = .error (.exc (.other "boom")) :=
  (fail_fast_unwraps_first_error [⟨0, .ret 1⟩, ⟨1, .raise (.other "boom")⟩]
    0 1 (.other "boom") rfl).1

/-- Claim C2 (the code evaluated at the failing input): receiver 0 returns a
deferred that fires with 5 only after the dispatch loop has finished and
receiver 1 returns 7 synchronously; `send_catch_log_deferred` fires with
`[(1, 5), (1, 7)]`, pairing receiver 0's outcome with receiver 1, because the
pairing lambda reads the loop variable `receiver` only when it runs (the
`cell-var-from-loop` case the source marks with a TODO), instead of the
`[(0, 5), (1, 7)]` the specification requires. -/
theorem collect_all_mislabels_pending_outcomes :
    (send_catch_log_deferred none none
        [⟨0, .defer 1 (.ok 5)⟩, ⟨1, .ret 7⟩]).1.result
      = .ok [(1, .value 5), (1, .value 7)]
    ∧ (send_catch_log_deferred none none
        [⟨0, .defer 1 (.ok 5)⟩, ⟨1, .ret 7⟩]).1.result
      ≠ .ok [(0, .value 5), (1, .value 7)] := by
  have h : (send_catch_log_deferred none none
      [⟨0, .defer 1 (.ok 5)⟩, ⟨1, .ret 7⟩]).1.result
      = .ok [(1, .value 5), (1, .value 7)] := rfl
  exact ⟨h, by rw [h]; simp⟩

/-- Claim C1 (counterexample): in collect-all dispatch with no `dont_log`
argument, a receiver raising `StopDownload` produces one log record, not the
zero the claim demands for every dispatch mode: `send_catch_log_deferred`
does not add `StopDownload` to its `dont_log`. -/
theorem stop_download_logged_in_collect_all :
    (send_catch_log_deferred none none [⟨0, .raise .stopDownload⟩]).2
      = [⟨0, .handlerError, none⟩] := rfl

/-- Claim C1 (amended): a receiver raising `StopDownload` always yields a
captured failure Outcome in synchronous and collect-all dispatch; it is
suppressed from logging implicitly in synchronous dispatch, but in collect-all
dispatch only when the caller passes it in `dont_log` — with `dont_log`
unset it is logged once.  In fail-fast dispatch the dispatcher never logs,
and the failure propagates as the overall error instead of being captured. -/
theorem stop_download_suppression (dont_log dl : List ExcKind)
    (spider : Option Nat) (pre post : List Receiver) (rid : Nat)
    (hdl : ExcKind.stopDownload ∈ dl) :
    ((send_catch_log dont_log spider
          (pre ++ [⟨rid, .raise .stopDownload⟩] ++ post)).1
        = (send_catch_log dont_log spider pre).1
          ++ [(rid, .failure (.exc .stopDownload))]
          ++ (send_catch_log dont_log spider post).1)
    ∧ ((send_catch_log dont_log spider
          (pre ++ [⟨rid, .raise .stopDownload⟩] ++ post)).2
        = (send_catch_log dont_log spider pre).2
          ++ (send_catch_log dont_log spider post).2)
    ∧ ((send_catch_log_deferred (some dl) spider
          (pre ++ [⟨rid, .raise .stopDownload⟩] ++ post)).2
        = (send_catch_log_deferred (some dl) spider pre).2
          ++ (send_catch_log_deferred (some dl) spider post).2)
    ∧ (∃ pairs, (send_catch_log_deferred (some dl) spider
          (pre ++ [⟨rid, .raise .stopDownload⟩] ++ post)).1.result = .ok pairs
        ∧ pairs[pre.length]? = some (rid, .failure (.exc .stopDownload)))
    ∧ ((send_catch_log_deferred none spider
          (pre ++ [⟨rid, .raise .stopDownload⟩] ++ post)).2
        = (send_catch_log_deferred none spider pre).2
          ++ [⟨rid, .handlerError, spider⟩]
          ++ (send_catch_log_deferred none spider post).2)
    ∧ ((send_deferred [⟨rid, .raise .stopDownload⟩]).result
        = .error (.exc .stopDownload)) := by
  have hcont : dl.contains ExcKind.stopDownload = true :=
    List.elem_eq_true_of_mem hdl
  refine ⟨?_, ?_, ?_, ?_, ?_, ?_⟩
  · simp [send_catch_log, syncOutcome]
  · simp [send_catch_log, List.filterMap_append, syncLog, suppressedSync]
  · simp [send_catch_log_deferred, List.filterMap_append,
      List.filterMap_cons, asyncLog, invocationOf, logerrorEmits, hcont, hdl]
  · refine ⟨_, rfl, ?_⟩
    rw [List.map_append, List.map_append, List.append_assoc,
      List.getElem?_append_right (by simp)]
    simp [pairFor, invocationOf, deferredOutcome]
  · simp [send_catch_log_deferred, List.filterMap_append, asyncLog,
      invocationOf, logerrorEmits]
  · rfl

/-- Witness for the amended stop-download claim at a concrete firing. -/
theorem stop_download_suppression_witness :
    (send_catch_log_deferred (some [ExcKind.stopDownload]) none
        ([] ++ [⟨7, .raise .stopDownload⟩] ++ [])).2
      = (send_catch_log_deferred (some [ExcKind.stopDownload]) none []).2
        ++ (send_catch_log_deferred (some [ExcKind.stopDownload]) none []).2 :=
  (stop_download_suppression [] [ExcKind.stopDownload] none [] [] 7
    (List.mem_singleton.mpr rfl)).2.2.1

/-- Claim C7: in synchronous and collect-all dispatch, a receiver raising an
error that is in neither suppressed set produces a captured failure Outcome
and exactly one log record identifying that receiver (and the spider
context), the surrounding receivers being dispatched unchanged. -/
theorem unsuppressed_error_logged_once (dont_log : List ExcKind)
    (dl : Option (List ExcKind)) (spider : Option Nat)
    (pre post : List Receiver) (rid : Nat) (e : ExcKind)
    (hs : suppressedSync dont_log e = false)
    (hd : logerrorEmits dl e = true) :
    ((send_catch_log dont_log spider (pre ++ [⟨rid, .raise e⟩] ++ post)).1
        = (send_catch_log dont_log spider pre).1
          ++ [(rid, .failure (.exc e))]
          ++ (send_catch_log dont_log spider post).1)
    ∧ ((send_catch_log dont_log spider (pre ++ [⟨rid, .raise e⟩] ++ post)).2
        = (send_catch_log dont_log spider pre).2
          ++ [⟨rid, .handlerError, spider⟩]
          ++ (send_catch_log dont_log spider post).2)
    ∧ ((send_catch_log_deferred dl spider
          (pre ++ [⟨rid, .raise e⟩] ++ post)).2
        = (send_catch_log_deferred dl spider pre).2
          ++ [⟨rid, .handlerError, spider⟩]
          ++ (send_catch_log_deferred dl spider post).2)
    ∧ (∃ pairs, (send_catch_log_deferred dl spider
          (pre ++ [⟨rid, .raise e⟩] ++ post)).1.result = .ok pairs
        ∧ pairs[pre.length]? = some (rid, .failure (.exc e))) := by
  refine ⟨?_, ?_, ?_, ?_⟩
  · simp [send_catch_log, syncOutcome]
  · simp [send_catch_log, List.filterMap_append, syncLog, hs]
  · simp [send_catch_log_deferred, List.filterMap_append, asyncLog,
      invocationOf, hd]
  · refine ⟨_, rfl, ?_⟩
    rw [List.map_append, List.map_append, List.append_assoc,
      List.getElem?_append_right (by simp)]
    simp [pairFor, invocationOf, deferredOutcome]

/-- Witness for the single-log claim at a concrete raising receiver. -/
theorem unsuppressed_error_logged_once_witness :
    (send_catch_log [] none ([] ++ [⟨2, .raise (.other "boom")⟩] ++ [])).2
      = (send_catch_log [] none []).2
        ++ [⟨2, .handlerError, none⟩]
        ++ (send_catch_log [] none []).2 :=
  (unsuppressed_error_logged_once [] none none [] [] 2 (.other "boom")
    (by decide) rfl).2.1

/-- Claim C8 (counterexample): a receiver registered under the wildcard
signal for sender `X` is resolved by `disconnect_all(S, X)` but disconnected
under the exact query key `(S, X)`, so its registration survives and a
subsequent `send_catch_log(S, X)` still dispatches to it — the Aggregate
Result is not empty. -/
theorem disconnect_all_misses_wildcard_registration :
    (send_catch_log [] none
        (liveReceivers (fun _ => true)
          (disconnect_all (Sig.sig 0) (Snd.snd 0) (fun _ => true)
            [(Sig.any, Snd.snd 0, ⟨0, .ret 1⟩)])
          (Sig.sig 0) (Snd.snd 0))).1
      = [(0, .value 1)] := rfl

/-- Claim C8 (amended): when every registration matched by `(S, X)` lies
under the exact key `(S, X)` (no wildcard registration is involved),
`disconnect_all(S, X)` removes all of them, so a subsequent
`send_catch_log(S, X)` resolves zero live receivers and returns an empty
Aggregate Result; and `disconnect_all(S, X)` with no remaining live
receivers is a no-op on any registry. -/
theorem disconnect_all_then_empty_dispatch (live : Nat → Bool)
    (regs : List Registration) (S : Sig) (X : Snd) (dont_log : List ExcKind)
    (spider : Option Nat)
    (hexact : ∀ reg ∈ regs, regMatches S X reg = true →
        reg.1 = S ∧ reg.2.1 = X) :
    liveReceivers live (disconnect_all S X live regs) S X = []
    ∧ send_catch_log dont_log spider
        (liveReceivers live (disconnect_all S X live regs) S X) = ([], [])
    ∧ (∀ regs' : List Registration, liveReceivers live regs' S X = [] →
        disconnect_all S X live regs' = regs') := by
  have hempty : liveReceivers live (disconnect_all S X live regs) S X = [] := by
    unfold liveReceivers disconnect_all
    rw [List.map_eq_nil_iff, List.filter_eq_nil_iff]
    intro reg hreg hcond
    rw [mem_foldl_disconnect] at hreg
    rw [Bool.and_eq_true] at hcond
    have hSX := hexact reg hreg.1 hcond.1
    refine hreg.2 reg.2.2 ?_ ⟨hSX.1, hSX.2, rfl⟩
    exact List.mem_map.mpr ⟨reg,
      List.mem_filter.mpr ⟨hreg.1, by rw [hcond.1, hcond.2]; rfl⟩, rfl⟩
  refine ⟨hempty, by rw [hempty]; rfl, ?_⟩
  intro regs' h
  unfold disconnect_all
  rw [h]
  rfl

/-- Witness for the amended disconnect-all claim at a concrete registry. -/
theorem disconnect_all_then_empty_dispatch_witness :
    liveReceivers (fun _ => true)
        (disconnect_all (Sig.sig 1) (Snd.snd 1) (fun _ => true)
          [(Sig.sig 1, Snd.snd 1, ⟨4, .ret 0⟩)])
        (Sig.sig 1) (Snd.snd 1) = [] :=
  (disconnect_all_then_empty_dispatch (fun _ => true)
    [(Sig.sig 1, Snd.snd 1, ⟨4, .ret 0⟩)] (Sig.sig 1) (Snd.snd 1) [] none
    (by decide)).1

end Scrapy
